import Mathlib

/-!
# Verification of the AutoMinds email agent core

Shallow embedding of the autonomous processing pipeline of the
`autominds-email` repository (files `autonomous_agent.py`, `email_brain.py`,
`google_contacts_provider.py`, `models.py`) together with proofs of the
behavioural properties stated in the specification.

External collaborators (Anthropic API transport, Gmail/Outlook REST calls,
Supabase, Google Tasks/Contacts, the filesystem) are modelled as oracle
parameters: each oracle value describes one possible behaviour of the
collaborator (a returned value or a raised exception), and the embedded
control flow around the oracles is translated line-by-line from the source.
-/

namespace AutoMinds

/-- Python exception classes that the embedded code distinguishes:
`except ImportError` (autonomous_agent.py line 470), `except OSError`
(line 599), and Pydantic's `TypeError` on item assignment.  `generic`
covers every other `Exception` subclass. -/
inductive PyError where
  | importError
  | typeError
  | osError
  | valueError
  | generic (msg : String)
deriving DecidableEq, Repr

/-- Rendering used when an exception is turned into a message with
`str(exc)` (autonomous_agent.py line 217). -/
def pyErrMsg : PyError → String
  | .importError => "ImportError"
  | .typeError => "TypeError"
  | .osError => "OSError"
  | .valueError => "ValueError"
  | .generic m => m

/-- `EmailPriority` enum (models.py lines 19-23). -/
inductive EmailPriority where
  | urgent | high | normal | low
deriving DecidableEq, Repr

/-- `.value` of an `EmailPriority` member. -/
def EmailPriority.val : EmailPriority → String
  | .urgent => "urgent"
  | .high => "high"
  | .normal => "normal"
  | .low => "low"

/-- `EmailCategory` enum (models.py lines 26-33). -/
inductive EmailCategory where
  | action_required | waiting_on | fyi | newsletter | promotional | personal | spam
deriving DecidableEq, Repr

/-- `.value` of an `EmailCategory` member. -/
def EmailCategory.val : EmailCategory → String
  | .action_required => "action_required"
  | .waiting_on => "waiting_on"
  | .fyi => "fyi"
  | .newsletter => "newsletter"
  | .promotional => "promotional"
  | .personal => "personal"
  | .spam => "spam"

/-- `EmailProvider` enum (models.py lines 14-16). -/
inductive EmailProvider where
  | gmail | outlook
deriving DecidableEq, Repr

/-- `DraftStatus` enum (models.py lines 36-41). -/
inductive DraftStatus where
  | pending | approved | sent | rejected | auto_sent
deriving DecidableEq, Repr

/-- `EmailAddress` model (models.py lines 46-49). -/
structure EmailAddress where
  name : String := ""
  email : String
deriving DecidableEq, Repr

/-- `EmailMessage` model (models.py lines 52-75).  The wall-clock `date`
field is modelled as an abstract `Nat` timestamp; `body_html`, `to`, `cc`,
`labels` and `attachment_names` are carried verbatim.  The AI-generated
fields default to `none` / `false` exactly as in the source. -/
structure EmailMessage where
  id : String
  thread_id : Option String := none
  provider : EmailProvider := .gmail
  subject : String := "(No Subject)"
  sender : EmailAddress
  date : Nat := 0
  body_text : String := ""
  body_html : String := ""
  snippet : String := ""
  is_unread : Bool := true
  has_attachments : Bool := false
  priority : Option EmailPriority := none
  category : Option EmailCategory := none
  summary : Option String := none
  suggested_action : Option String := none
  is_vip : Bool := false
deriving DecidableEq, Repr

/-- `ConnectedAccount` model (models.py lines 131-140); token and
timestamp fields irrelevant to control flow are kept as plain data. -/
structure ConnectedAccount where
  provider : EmailProvider
  email : String
  display_name : String := ""
  access_token : String := ""
  refresh_token : String := ""
  is_active : Bool := true
deriving DecidableEq, Repr

/-- `UserSettings` model (models.py lines 120-128), restricted to the
fields the agent reads (`vip_contacts`, `auto_send_contacts`,
`draft_tone`). -/
structure UserSettings where
  vip_contacts : List String := []
  auto_send_contacts : List String := []
  draft_tone : String := "professional"
deriving DecidableEq, Repr

/-- `User` model (models.py lines 143-157), restricted to the fields the
agent reads. -/
structure User where
  id : String
  email : String
  name : String := ""
  connected_accounts : List ConnectedAccount := []
  settings : UserSettings := {}
deriving DecidableEq, Repr

/-- `EmailDraft` model (models.py lines 78-90).  The source field `to`
is spelled `toAddr` here (`to` is reserved in Lean).  `created_at`
(`default_factory=datetime.utcnow`) is a wall-clock timestamp that no
verified path reads and is not modelled. -/
structure EmailDraft where
  id : String := ""
  original_email_id : String
  toAddr : String
  subject : String
  body : String
  status : DraftStatus := .pending
  instructions : String := ""
  safety_flags : List String := []
  safety_severity : String := "none"
deriving DecidableEq, Repr

/-! ## Python string helpers

Python `str.lower()` and `str.startswith` operate on the character
sequence of the string; they are modelled on `String.data`. -/

/-- Python `s.lower()` (ASCII case mapping, which is all the embedded code
compares against). -/
def pyLower (s : String) : String := ⟨s.data.map Char.toLower⟩

/-- Python `s.startswith(pre)`. -/
def pyStartsWith (s pre : String) : Bool := pre.data.isPrefixOf s.data

/-- Python `s[:n]` on a string (slice of the first `n` characters). -/
def pySliceTo (s : String) : Nat → String := fun n => ⟨s.data.take n⟩

/-! ## Idempotency store (`_load_processed_ids` / `_save_processed_ids`)

autonomous_agent.py lines 84-129.  The processed-ID state held by the
agent is a Python `set`; its enumeration order in `list(ids)` is **not**
insertion order (CPython enumerates a set in hash-table order, which for
string keys is additionally randomized per process).  The embedding
therefore takes the enumeration as a parameter `enum`, constrained only
by `IsSetEnum`: it must list exactly the elements of the set, each once.
Everything downstream of the enumeration is translated directly. -/

/-- Python `l[-n:]`: the last `n` elements of a list (the whole list when
it has at most `n` elements). -/
def pyTail (l : List α) (n : Nat) : List α := l.drop (l.length - n)

/-- The constraint Python guarantees for `list(s)` where `s` is a set:
the result enumerates exactly the elements of `s`, each exactly once.
No ordering guarantee exists. -/
def IsSetEnum {α : Type} [DecidableEq α] (enum : Finset α → List α) : Prop :=
  ∀ s : Finset α, (enum s).Nodup ∧ (enum s).toFinset = s

/-- `_save_processed_ids` (autonomous_agent.py lines 109-129): the list
persisted for the user is `list(ids)[-5000:]`, i.e. the last 5000
entries of the set's enumeration.  (Which backend stores it — Supabase
row or the JSON fallback file — does not change the stored list.) -/
def saveProcessedIds {α : Type} [DecidableEq α]
    (enum : Finset α → List α) (ids : Finset α) : List α :=
  pyTail (enum ids) 5000

/-- `_load_processed_ids` (autonomous_agent.py lines 84-107): both the
Supabase path and the disk path return `set(stored[-5000:])`. -/
def loadProcessedIds {α : Type} [DecidableEq α] (stored : List α) : Finset α :=
  (pyTail stored 5000).toFinset

/-- The specification's notion used by the set-bound property: the `n`
most recently added identifiers of an insertion history (the history
lists identifiers in insertion order, oldest first). -/
def mostRecent (history : List α) (n : Nat) : List α := pyTail history n

/-- One possible Python set enumeration: elements in descending order.
CPython promises nothing about `list(s)` order, so any enumeration
satisfying `IsSetEnum` is an admissible behaviour of the source line
`trimmed = list(ids)[-5000:]`. -/
def descEnum (s : Finset ℕ) : List ℕ := (s.sort (· ≤ ·)).reverse

/-- Another admissible enumeration: ascending order. -/
def ascEnum (s : Finset ℕ) : List ℕ := s.sort (· ≤ ·)

/-! ## Classification router (`email_brain.analyze_emails`,
`email_brain.quick_classify`, `EmailAgent._analyze_emails`)

The two model endpoints are oracles.  A deep-analysis oracle outcome is
either a transport/parse failure (anthropic exception, markdown-wrapped
or malformed JSON — all caught by `analyze_emails` itself,
email_brain.py lines 229-237) or a parsed list of per-id result
objects.  Missing fields of a result object are replaced by the
source's `.get(..., default)` values at the parse boundary, so a
`DeepResult` carries the final field values. -/

/-- One parsed object of the deep-analysis JSON response
(email_brain.py lines 211-219), with the `result.get` defaults already
applied: `priority` defaults to normal, `category` to fyi, `summary`
and `suggested_action` to `""`, `is_vip` to `false`. -/
structure DeepResult where
  id : String
  priority : EmailPriority := .normal
  category : EmailCategory := .fyi
  summary : String := ""
  suggested_action : String := ""
  is_vip : Bool := false
deriving DecidableEq, Repr

/-- `results_by_id = {r["id"]: r for r in analysis_results}`
(email_brain.py line 211): a Python dict comprehension keeps the **last**
entry for a duplicated key. -/
def dictById (rs : List DeepResult) (i : String) : Option DeepResult :=
  (rs.filter (fun r => r.id = i)).getLast?

/-- The per-email annotation loop of `analyze_emails` (email_brain.py
lines 213-219): fields are overwritten from the matching result object,
or from `{}` (all defaults) when the id has no result. -/
def applyDeep (rs : List DeepResult) (em : EmailMessage) : EmailMessage :=
  match dictById rs em.id with
  | some r =>
      { em with priority := some r.priority, category := some r.category,
                summary := some r.summary,
                suggested_action := some r.suggested_action,
                is_vip := r.is_vip }
  | none =>
      { em with priority := some .normal, category := some .fyi,
                summary := some "", suggested_action := some "",
                is_vip := false }

/-- `email_brain.analyze_emails` (lines 143-237).  `deepCall` is the
oracle for `_call_opus` plus JSON parsing; on any failure the source
logs and returns the (un-annotated) input list.  The VIP-contact list
and the prompt text only influence what the model answers, which the
oracle already captures. -/
def analyze_emails (deepCall : List EmailMessage → Except Unit (List DeepResult))
    (emails : List EmailMessage) : List EmailMessage :=
  if emails.isEmpty then []
  else
    match deepCall emails with
    | .error _ => emails
    | .ok rs => emails.map (applyDeep rs)

/-- One parsed object of the quick-triage JSON response
(email_brain.py lines 619-620).  `id` is `none` when the entry has no
`"id"` key — reading it with `r["id"]` then raises `KeyError`
(autonomous_agent.py line 343). -/
structure QuickResult where
  id : Option String
  is_spam : Bool := false
  is_newsletter : Bool := false
deriving DecidableEq, Repr

/-- `email_brain.quick_classify` (lines 597-639): returns `[]` for an
empty batch, and — because the whole call is wrapped in
`try/except Exception` — also returns `[]` whenever the Haiku call or
the JSON parse fails. -/
def quick_classify (quickCall : List EmailMessage → Except Unit (List QuickResult))
    (emails : List EmailMessage) : List QuickResult :=
  if emails.isEmpty then []
  else
    match quickCall emails with
    | .error _ => []
    | .ok rs => rs

/-- `quick_map = {r["id"]: r for r in quick_results} if quick_results
else {}` (autonomous_agent.py line 343).  Building the dict raises
`KeyError` when some entry lacks an `"id"` key; that exception escapes
to the `except` of `_analyze_emails`. -/
def buildQuickMap (rs : List QuickResult) :
    Except PyError (String → Option QuickResult) :=
  if rs.isEmpty then .ok (fun _ => none)
  else if rs.all (fun r => r.id.isSome) then
    .ok (fun i => (rs.filter (fun r => r.id = some i)).getLast?)
  else .error (.generic "KeyError")

/-- Spam finalization (autonomous_agent.py lines 351-354). -/
def markSpam (em : EmailMessage) : EmailMessage :=
  { em with category := some .spam, priority := some .low,
            summary := some "Detected as spam by quick classifier" }

/-- Newsletter finalization (autonomous_agent.py lines 355-359). -/
def markNewsletter (em : EmailMessage) : EmailMessage :=
  { em with category := some .newsletter, priority := some .low,
            summary := some ("Newsletter: " ++ em.subject) }

/-- The split loop of `_analyze_emails` (autonomous_agent.py lines
346-361): returns `(worth_analyzing, skippable)`, input order preserved
inside each subset.  `qr.get("is_spam", False)` on the `{}` default
(id not in the map) routes the email to `worth_analyzing`. -/
def triageSplit (qmap : String → Option QuickResult) :
    List EmailMessage → List EmailMessage × List EmailMessage
  | [] => ([], [])
  | em :: rest =>
    let p := triageSplit qmap rest
    match qmap em.id with
    | some qr =>
        if qr.is_spam then (p.1, markSpam em :: p.2)
        else if qr.is_newsletter then (p.1, markNewsletter em :: p.2)
        else (em :: p.1, p.2)
    | none => (em :: p.1, p.2)

/-- `EmailAgent._analyze_emails` (autonomous_agent.py lines 324-383).
Returns the resulting batch together with the trace of batches handed
to the deep-analysis (Opus) call, in order, so that call counts are
observable.  `analyze_emails` performs exactly one deep call when its
input is non-empty and none otherwise; the `except` branch's own
failure handler (`except Exception: return emails`) is subsumed because
the embedded `analyze_emails` is total. -/
def agentAnalyze (quickCall : List EmailMessage → Except Unit (List QuickResult))
    (deepCall : List EmailMessage → Except Unit (List DeepResult))
    (emails : List EmailMessage) :
    List EmailMessage × List (List EmailMessage) :=
  if emails.isEmpty then (emails, [])
  else
    let qrs := quick_classify quickCall emails
    match buildQuickMap qrs with
    | .error _ => (analyze_emails deepCall emails, [emails])
    | .ok qmap =>
      let p := triageSplit qmap emails
      if p.1.isEmpty then (([] : List EmailMessage) ++ p.2, [])
      else (analyze_emails deepCall p.1 ++ p.2, [p.1])

/-! ## Draft engine (`email_brain.draft_reply`, lines 417-592)

Model calls are oracles indexed by call number: `opusO k` is the
(k+1)-th drafting call (call 0 the initial draft, later calls the
rewrites), `evalO k` the (k+1)-th evaluation call.  Prompt text is pure
string formatting that only influences what the model answers, which
the oracles capture.  The draft id `str(uuid.uuid4())[:8]` is an
external source of randomness, passed in as `fresh_id`. -/

/-- Parsed evaluator JSON (email_brain.py lines 477-479): each field is
`none` when the key is missing, and the source reads them with
`.get("overall_score", 8)`, `.get("pass", True)`,
`.get("feedback", ...)`. -/
structure EvalResult where
  overall_score : Option Int := none
  pass : Option Bool := none
  feedback : Option String := none
deriving DecidableEq, Repr

/-- Outcome of one evaluation call.  `parseBreak` is a
`json.JSONDecodeError`/`KeyError` (caught at email_brain.py line 520,
which breaks out of the loop keeping the current draft); `raise` is any
other exception of the call (e.g. the transport), which is **not**
matched by that handler and escapes to the outer `try` of
`draft_reply`. -/
inductive EvalOutcome where
  | evOk (ev : EvalResult)
  | parseBreak
  | raise (e : PyError)
deriving DecidableEq, Repr

/-- Contents of a safety-check JSON **object** (email_brain.py lines
409-414): `safe` is the truthiness read by `.get("safe", True)`,
`severity` is `none` when the key is missing (read with
`.get("severity", "low")`). -/
structure SafetyResult where
  safe : Bool := true
  flags : List String := []
  severity : Option String := none
deriving DecidableEq, Repr

/-- The value `_run_safety_check` hands back: `json.loads(raw)` is
returned unchecked, so besides a JSON object it may be a falsy value
(`null`, `false`, `0`, `""`, `[]`, `{}` — the guard
`if safety_result and ...` at email_brain.py line 543 then
short-circuits) or a **truthy non-object** (a non-empty array, string,
number or `true`), on which `safety_result.get("safe", True)` raises
`AttributeError` into the outer `except` of `draft_reply`. -/
inductive SafetyJson where
  | dict (r : SafetyResult)
  | falsy
  | truthyNonDict
deriving DecidableEq, Repr

/-- `_run_safety_check` (email_brain.py lines 566-592): any failure of
the Haiku call or the JSON parse is caught and replaced by the object
`{"safe": True, "flags": [], "severity": "none"}`; a successful parse
is returned as-is, whatever JSON value it is. -/
def run_safety_check (safetyCall : Except Unit SafetyJson) : SafetyJson :=
  match safetyCall with
  | .ok r => r
  | .error _ => .dict { safe := true, flags := [], severity := some "none" }

/-- State at the end of the evaluator-optimizer loop: the current draft
body and how many drafting / evaluation calls were issued in total. -/
structure DraftLoopState where
  body : String
  draftCalls : Nat
  evalCalls : Nat
deriving DecidableEq, Repr

/-- The `for iteration in range(max_iterations)` loop of `draft_reply`
(email_brain.py lines 469-522).  `n` is the number of remaining
iterations, `eIdx`/`oIdx` the number of evaluation / drafting calls
already issued, `body` the current draft body.  An exception that the
inner `except (json.JSONDecodeError, KeyError)` does not match
propagates as `.error` together with the call counts at that point. -/
def draftLoop (evalO : Nat → EvalOutcome) (opusO : Nat → Except PyError String) :
    Nat → Nat → Nat → String → Except (PyError × Nat × Nat) DraftLoopState
  | 0, eIdx, oIdx, body => .ok ⟨body, oIdx, eIdx⟩
  | n + 1, eIdx, oIdx, body =>
    match evalO eIdx with
    | .raise e => .error (e, oIdx, eIdx + 1)
    | .parseBreak => .ok ⟨body, oIdx, eIdx + 1⟩
    | .evOk ev =>
      let overall := ev.overall_score.getD 8
      let passed := ev.pass.getD true
      if passed || 8 ≤ overall then .ok ⟨body, oIdx, eIdx + 1⟩
      else
        match opusO oIdx with
        | .error e => .error (e, oIdx + 1, eIdx + 1)
        | .ok body2 => draftLoop evalO opusO n (eIdx + 1) (oIdx + 1) body2

/-- The irrecoverable-failure draft built by the outer `except` of
`draft_reply` (email_brain.py lines 553-563).  Note the subject is
`f"Re: {original_email.subject}"` unconditionally. -/
def errorDraft (fresh_id : String) (original : EmailMessage)
    (instructions : String) (e : PyError) : EmailDraft :=
  { id := fresh_id, original_email_id := original.id,
    toAddr := original.sender.email,
    subject := "Re: " ++ original.subject,
    body := "[Error generating draft: " ++ pyErrMsg e ++ "]",
    status := .pending, instructions := instructions }

/-- Result of `draft_reply` instrumented with the number of drafting and
evaluation calls issued (for the call-count properties). -/
structure DraftRun where
  draft : EmailDraft
  draftCalls : Nat
  evalCalls : Nat
deriving DecidableEq, Repr

/-- `email_brain.draft_reply` (lines 417-563).  Success path: initial
Opus draft, evaluator-optimizer loop, safety check, then the reply
subject becomes `"Re: " + subject` unless
`subject.lower().startswith("re:")`; the flag-attach step
`if safety_result and not safety_result.get("safe", True)` (line 543)
reads `.get` on the parsed safety JSON, so a truthy non-object safety
result raises `AttributeError` there, which the outer `except`
(line 553) turns into the `errorDraft` — as does any other exception
not handled inside the loop.  Safety flags and severity
(`.get("severity", "low")`) are attached only when the check reported
unsafe. -/
def draft_reply (opusO : Nat → Except PyError String)
    (evalO : Nat → EvalOutcome)
    (safetyCall : Except Unit SafetyJson)
    (fresh_id : String)
    (original : EmailMessage)
    (instructions : String := "Write a professional reply")
    (tone : String := "professional")
    (user_name : String := "")
    (max_iterations : Nat := 2) : DraftRun :=
  match opusO 0 with
  | .error e =>
      { draft := errorDraft fresh_id original instructions e,
        draftCalls := 1, evalCalls := 0 }
  | .ok body0 =>
    match draftLoop evalO opusO max_iterations 0 1 body0 with
    | .error (e, oc, ec) =>
        { draft := errorDraft fresh_id original instructions e,
          draftCalls := oc, evalCalls := ec }
    | .ok st =>
      let subject :=
        if pyStartsWith (pyLower original.subject) "re:" then original.subject
        else "Re: " ++ original.subject
      let base : EmailDraft :=
        { id := fresh_id, original_email_id := original.id,
          toAddr := original.sender.email, subject := subject,
          body := st.body, status := .pending, instructions := instructions }
      match run_safety_check safetyCall with
      | .truthyNonDict =>
          { draft := errorDraft fresh_id original instructions
              (.generic "AttributeError"),
            draftCalls := st.draftCalls, evalCalls := st.evalCalls }
      | .falsy =>
          { draft := base, draftCalls := st.draftCalls, evalCalls := st.evalCalls }
      | .dict r =>
          let final :=
            if !r.safe then
              { base with safety_flags := r.flags,
                          safety_severity := r.severity.getD "low" }
            else base
          { draft := final, draftCalls := st.draftCalls, evalCalls := st.evalCalls }

/-! ## Contact enrichment (`EmailAgent._enrich_with_contacts`,
autonomous_agent.py lines 298-322, and
`google_contacts_provider.enrich_email_with_contact`, lines 252-279) -/

/-- Contact data returned by `lookup_contact` /
`batch_lookup_contacts`. -/
structure ContactInfo where
  name : String := ""
  company : String := ""
  job_title : String := ""
  phone : String := ""
  relationship : String := "unknown"
  labels : List String := []
deriving DecidableEq, Repr

/-- `enrich_email_with_contact` (google_contacts_provider.py lines
252-279) applied to what the agent actually passes it: an
`EmailMessage` Pydantic model, not a dict.  With a falsy `contact_info`
it returns the input untouched; otherwise its first statement
`email_dict["sender_name"] = ...` is an item assignment, which a
Pydantic `BaseModel` does not support — it raises `TypeError` before
any field is written. -/
def enrich_email_with_contact (em : EmailMessage) (contact : Option ContactInfo) :
    Except PyError EmailMessage :=
  match contact with
  | none => .ok em
  | some _ => .error .typeError

/-- The enrichment loop (autonomous_agent.py lines 315-318):
`for em in emails: ...; em = enrich_email_with_contact(em, contact)`.
The loop variable is rebound, so a successful return value would be
discarded; the list is never written.  The first exception aborts the
loop and propagates. -/
def enrichLoop (cmap : String → Option ContactInfo) :
    List EmailMessage → Except PyError Unit
  | [] => .ok ()
  | em :: rest =>
    match cmap em.sender.email with
    | some c =>
      match enrich_email_with_contact em (some c) with
      | .error e => .error e
      | .ok _ => enrichLoop cmap rest
    | none => enrichLoop cmap rest

/-- `EmailAgent._enrich_with_contacts` (autonomous_agent.py lines
298-322).  `lookup` is the outcome of importing the provider and
calling `batch_lookup_contacts`; an import failure or a raised lookup
(both handled by the function's own handlers) is `.error`.  Any
exception from the loop is caught by the same `except Exception`
handler and the input list is returned. -/
def enrich_with_contacts (lookup : Except PyError (String → Option ContactInfo))
    (emails : List EmailMessage) : List EmailMessage :=
  match lookup with
  | .error _ => emails
  | .ok cmap =>
    match enrichLoop cmap emails with
    | .ok _ => emails
    | .error _ => emails

/-! ## Cycle orchestrator (`EmailAgent`, autonomous_agent.py lines
134-628)

`CycleEnv` packages one behaviour of every external collaborator the
cycle touches.  Oracles returning `Except` describe a returned value or
a raised exception.  The draft-engine oracles are families indexed by
the email id being replied to. -/

/-- One sub-action of a processed email (the dicts built at
autonomous_agent.py lines 454, 503-508, 554-559). -/
inductive ActionSub where
  | labeled (label : String)
  | task_created (task_title : String) (due_date : String) (task_id : String)
  | draft_created (draft_id : String) (draft_to : String) (draft_subject : String)
deriving DecidableEq, Repr

/-- The `"type"` tag of a sub-action dict. -/
def ActionSub.typeTag : ActionSub → String
  | .labeled _ => "labeled"
  | .task_created .. => "task_created"
  | .draft_created .. => "draft_created"

/-- The per-email action dict built by `_process_email`
(autonomous_agent.py lines 412-423). -/
structure ActionDict where
  email_id : String
  from_email : String
  from_name : String
  subject : String
  priority : String
  category : String
  is_vip : Bool
  summary : String
  actions : List ActionSub
  processed_at : String
deriving DecidableEq, Repr

/-- An entry of `self.errors` (autonomous_agent.py lines 214-218). -/
structure ErrEntry where
  email_id : String
  subject : String
  error : String
deriving DecidableEq, Repr

/-- One behaviour of every external collaborator of a cycle.  Wall-clock
readings are collapsed into `now` (timestamps) and `elapsed` (the
elapsed-seconds float, abstracted to whole seconds — no claim reads
it). -/
structure CycleEnv where
  get_user : String → Option User := fun _ => none
  load_ids : Finset String := ∅
  fetch : ConnectedAccount → Except PyError (List EmailMessage) := fun _ => .ok []
  contactsLookup : Except PyError (String → Option ContactInfo) := .error .importError
  quickCall : List EmailMessage → Except Unit (List QuickResult) := fun _ => .error ()
  deepCall : List EmailMessage → Except Unit (List DeepResult) := fun _ => .error ()
  add_label : ConnectedAccount → String → String → Except PyError Bool := fun _ _ _ => .ok true
  add_category : Option (ConnectedAccount → String → String → Except PyError Bool) := none
  importTasks : Except PyError Unit := .ok ()
  get_task_list : Option ConnectedAccount → String → Except PyError String := fun _ _ => .ok "tl1"
  create_task : Option ConnectedAccount → String → String → String → String →
    Except PyError String := fun _ _ _ _ _ => .ok "task1"
  draftOpus : String → Nat → Except PyError String := fun _ _ => .ok "Draft body."
  draftEval : String → Nat → EvalOutcome := fun _ _ => .parseBreak
  draftSafety : String → Except Unit SafetyJson := fun _ => .error ()
  writeDraft : String → Except PyError Unit := fun _ => .ok ()
  uuid : String → String := fun _ => "d1"
  save_remote : Except PyError Unit := .ok ()
  save_disk : Except PyError Unit := .ok ()
  log_remote : Except PyError Unit := .ok ()
  log_mkdirs : Except PyError Unit := .ok ()
  log_disk : Except PyError Unit := .ok ()
  now : Nat := 0
  elapsed : Nat := 0

/-- Python `s.upper()` (ASCII). -/
def pyUpper (s : String) : String := ⟨s.data.map Char.toUpper⟩

/-- Opaque rendering of `datetime.isoformat()` on the abstract
timestamp (no claim inspects the rendered text). -/
def dateIso (n : Nat) : String := toString n

/-- Opaque rendering of `due_date.strftime("%Y-%m-%d")`. -/
def dayStr (n : Nat) : String := toString n

/-- `CATEGORY_LABELS.get(email.category)` (autonomous_agent.py lines
42-50): every category has a label, a `None` category has none. -/
def categoryLabel : Option EmailCategory → Option String
  | none => none
  | some .action_required => some "AutoMinds/Action Required"
  | some .waiting_on => some "AutoMinds/Waiting On"
  | some .fyi => some "AutoMinds/FYI"
  | some .newsletter => some "AutoMinds/Newsletter"
  | some .promotional => some "AutoMinds/Promotional"
  | some .personal => some "AutoMinds/Personal"
  | some .spam => some "AutoMinds/Spam"

/-- `PRIORITY_DUE_DAYS` (autonomous_agent.py lines 53-58); the map is
total, so the `.get(priority, 3)` default is never used. -/
def priorityDueDays : EmailPriority → Nat
  | .urgent => 0
  | .high => 1
  | .normal => 3
  | .low => 7

/-- `EmailAgent._get_primary_account` (autonomous_agent.py lines
604-615). -/
def get_primary_account (user : User) : Option ConnectedAccount :=
  match user.connected_accounts.find? (fun a => a.is_active && a.provider == .gmail) with
  | some a => some a
  | none => user.connected_accounts.find? (fun a => a.is_active)

/-- `EmailAgent._label_email` (autonomous_agent.py lines 427-458).  Any
exception of the provider calls is caught by the function's
`except Exception` and yields `None`; in particular a failing VIP-label
call discards the already-successful main label result. -/
def label_email (env : CycleEnv) (em : EmailMessage) (account : ConnectedAccount) :
    Option ActionSub :=
  match categoryLabel em.category with
  | none => none
  | some label_name =>
    let attempt : Except PyError Bool :=
      match account.provider with
      | .gmail => env.add_label account em.id label_name
      | .outlook =>
        match env.add_category with
        | none => .ok false
        | some f => f account em.id label_name
    match attempt with
    | .error _ => none
    | .ok false => none
    | .ok true =>
      if em.is_vip && account.provider == .gmail then
        match env.add_label account em.id "AutoMinds/VIP" with
        | .error _ => none
        | .ok _ => some (.labeled label_name)
      else some (.labeled label_name)

/-- `EmailAgent._create_task_for_email` (autonomous_agent.py lines
462-511).  The import of `google_tasks_provider` is guarded only by
`except ImportError`; an import failure of any other class propagates
(the per-email handler in `run_cycle` is what catches it).  Failures of
the task API calls are caught by the inner `except Exception` and yield
`None`. -/
def create_task_for_email (env : CycleEnv) (user : User) (em : EmailMessage) :
    Except PyError (Option ActionSub) :=
  match env.importTasks with
  | .error .importError => .ok none
  | .error e => .error e
  | .ok _ =>
    let priority := em.priority.getD .normal
    let priority_tag := pyUpper priority.val
    let sender_name :=
      if em.sender.name = "" then (em.sender.email.splitOn "@").headD ""
      else em.sender.name
    let title := "[" ++ priority_tag ++ "] Action: " ++ pySliceTo em.subject 80 ++
      " (from " ++ sender_name ++ ")"
    let due_date := env.now + priorityDueDays priority
    let summaryTxt :=
      match em.summary with
      | some s => if s = "" then pySliceTo em.snippet 200 else s
      | none => pySliceTo em.snippet 200
    let sugg :=
      match em.suggested_action with
      | some s => if s = "" then "Review and reply" else s
      | none => "Review and reply"
    let notes := "From: " ++ em.sender.name ++ " <" ++ em.sender.email ++ ">\n" ++
      "Subject: " ++ em.subject ++ "\n" ++ "Date: " ++ dateIso em.date ++ "\n\n" ++
      "Summary: " ++ summaryTxt ++ "\n\n" ++ "Suggested action: " ++ sugg
    let primary := get_primary_account user
    match env.get_task_list primary "AutoMinds" with
    | .error _ => .ok none
    | .ok tlid =>
      match env.create_task primary tlid title notes (dayStr due_date) with
      | .error _ => .ok none
      | .ok tid => .ok (some (.task_created title (dayStr due_date) tid))

/-- `EmailAgent._should_auto_draft` (autonomous_agent.py lines 515-527);
inside `run_cycle` the user is always resolved, so the `not self.user`
guard is dropped. -/
def should_auto_draft (user : User) (em : EmailMessage) : Bool :=
  (em.category == some .action_required) &&
  ((user.settings.auto_send_contacts.map pyLower).contains (pyLower em.sender.email))

/-- `EmailAgent._auto_draft_reply` (autonomous_agent.py lines 529-562).
The embedded `draft_reply` never raises; the remaining failure source
inside the `try` is the draft-persistence write, caught by the
function's own `except Exception`. -/
def auto_draft_reply (env : CycleEnv) (user : User) (em : EmailMessage) :
    Option ActionSub :=
  let context :=
    match em.suggested_action with
    | some s => if s = "" then "Reply professionally." else s
    | none => "Reply professionally."
  let instructions := "Respond to this email appropriately. Context: " ++ context
  let run := draft_reply (env.draftOpus em.id) (env.draftEval em.id)
    (env.draftSafety em.id) (env.uuid em.id) em instructions
    user.settings.draft_tone user.name 2
  match env.writeDraft run.draft.id with
  | .error _ => none
  | .ok _ => some (.draft_created run.draft.id run.draft.toAddr run.draft.subject)

/-- `EmailAgent._process_email` (autonomous_agent.py lines 385-423):
label, then conditional task, then conditional auto-draft, then the
action dict (always returned).  The only exception that can escape is
the non-`ImportError` propagation of `create_task_for_email`. -/
def process_email (env : CycleEnv) (user : User) (em : EmailMessage)
    (account : ConnectedAccount) : Except PyError ActionDict :=
  let a1 := label_email env em account
  let taskStep : Except PyError (Option ActionSub) :=
    if (em.category == some .action_required || em.category == some .waiting_on)
        || em.is_vip then
      create_task_for_email env user em
    else .ok none
  match taskStep with
  | .error e => .error e
  | .ok a2 =>
    let a3 := if should_auto_draft user em then auto_draft_reply env user em else none
    .ok { email_id := em.id,
          from_email := em.sender.email,
          from_name := em.sender.name,
          subject := em.subject,
          priority := match em.priority with | some p => p.val | none => "unknown",
          category := match em.category with | some c => c.val | none => "unknown",
          is_vip := em.is_vip,
          summary := em.summary.getD "",
          actions := [a1, a2, a3].filterMap id,
          processed_at := dateIso env.now }

/-- The per-email loop of `run_cycle` (autonomous_agent.py lines
205-220): returns `(actions_taken, errors, newly_processed_ids)`, each
in processing order.  An exception from one email is recorded as one
error entry and the loop continues. -/
def processLoop (env : CycleEnv) (user : User) :
    List (EmailMessage × ConnectedAccount) →
    List ActionDict × List ErrEntry × List String
  | [] => ([], [], [])
  | (em, account) :: rest =>
    let r := processLoop env user rest
    match process_email env user em account with
    | .ok a => (a :: r.1, r.2.1, em.id :: r.2.2)
    | .error e => (r.1, ⟨em.id, em.subject, pyErrMsg e⟩ :: r.2.1, r.2.2)

/-- Whether processing a batch element raises (the guard of the
per-email `try`/`except`). -/
def pFails (env : CycleEnv) (user : User) (p : EmailMessage × ConnectedAccount) : Bool :=
  match process_email env user p.1 p.2 with
  | .ok _ => false
  | .error _ => true

/-- The error entry recorded for a batch element whose processing raised
(autonomous_agent.py lines 214-218). -/
def pErrEntry (env : CycleEnv) (user : User) (p : EmailMessage × ConnectedAccount) :
    ErrEntry :=
  match process_email env user p.1 p.2 with
  | .error e => ⟨p.1.id, p.1.subject, pyErrMsg e⟩
  | .ok _ => ⟨p.1.id, p.1.subject, ""⟩

/-- Insertion into a sorted list of strings (model of Python
`sorted`). -/
def insertSorted (x : String) : List String → List String
  | [] => [x]
  | y :: ys => if x ≤ y then x :: y :: ys else y :: insertSorted x ys

/-- Python `sorted` on strings (insertion sort — same output). -/
def sortStrings : List String → List String
  | [] => []
  | x :: xs => insertSorted x (sortStrings xs)

/-- Count of sub-actions with a given type tag across all actions
(the tallies of `get_summary`). -/
def subTypeCount (actions : List ActionDict) (t : String) : Nat :=
  (actions.flatMap (·.actions)).countP (fun s => s.typeTag == t)

/-- `EmailAgent.get_summary` (autonomous_agent.py lines 233-268); the
elapsed-seconds float rendering is abstracted to whole seconds. -/
def get_summary (actions : List ActionDict) (errors : List ErrEntry)
    (elapsed : Nat) : String :=
  if actions.length = 0 then
    "No new emails to process (" ++ toString elapsed ++ "s)"
  else
    let keys := sortStrings ((actions.map (·.category)).dedup)
    let catLines := keys.map (fun c =>
      "  - " ++ toString ((actions.filter (fun a => a.category == c)).length) ++ " " ++ c)
    let tasks := subTypeCount actions "task_created"
    let drafts := subTypeCount actions "draft_created"
    let lines := ["Processed " ++ toString actions.length ++ " emails in " ++
        toString elapsed ++ "s:"] ++ catLines ++
      (if tasks ≠ 0 then ["  Tasks created: " ++ toString tasks] else []) ++
      (if drafts ≠ 0 then ["  Drafts created: " ++ toString drafts] else []) ++
      (if errors.length ≠ 0 then ["  Errors: " ++ toString errors.length] else [])
    String.intercalate "\n" lines

/-- Outcome of `_save_processed_ids` (autonomous_agent.py lines
109-129) as seen by `run_cycle`: the Supabase upsert is tried first and
any of its exceptions swallowed; the disk fallback (`_ensure_dirs` +
`open`/`json.dump`, lines 125-129) is **not** guarded — its exception
propagates. -/
def save_processed_ids_outcome (remote disk : Except PyError Unit) :
    Except PyError Unit :=
  match remote with
  | .ok _ => .ok ()
  | .error _ => disk

/-- Outcome of `_log_actions` (autonomous_agent.py lines 566-600): the
Supabase insert's exceptions are swallowed; on the disk path
`_ensure_dirs()` (line 591) is unguarded, while the file write is
guarded by `except OSError` only. -/
def log_actions_outcome (remote mkdirs disk : Except PyError Unit) :
    Except PyError Unit :=
  match remote with
  | .ok _ => .ok ()
  | .error _ =>
    match mkdirs with
    | .error e => .error e
    | .ok _ =>
      match disk with
      | .ok _ => .ok ()
      | .error .osError => .ok ()
      | .error e => .error e

/-- The return dict of `run_cycle` in the normal case
(`EmailAgent._build_result`, autonomous_agent.py lines 617-628); the
dict's `errors` entry is the **count** `len(self.errors)`. -/
structure CycleResult where
  user_id : String
  summary : String
  emails_processed : Nat
  errors : Nat
  actions : List ActionDict
  elapsed_seconds : Nat
deriving DecidableEq, Repr

/-- The three shapes `run_cycle` can return: `{"error":
"user_not_found"}`, `{"skipped": True}`, or the `_build_result`
dict. -/
inductive CycleOutcome where
  | userNotFound
  | skipped
  | result (r : CycleResult)
deriving DecidableEq, Repr

/-- `_build_result` (autonomous_agent.py lines 617-628). -/
def build_result (env : CycleEnv) (user_id : String) (actions : List ActionDict)
    (errors : List ErrEntry) : CycleResult :=
  { user_id := user_id,
    summary := get_summary actions errors env.elapsed,
    emails_processed := actions.length,
    errors := errors.length,
    actions := actions,
    elapsed_seconds := env.elapsed }

/-- `EmailAgent._fetch_emails_for_account` (autonomous_agent.py lines
272-296): a fetch failure yields `[]`; otherwise already-processed ids
are filtered out before anything else sees the batch. -/
def fetch_emails_for_account (env : CycleEnv) (processed : Finset String)
    (account : ConnectedAccount) : List EmailMessage :=
  match env.fetch account with
  | .error _ => []
  | .ok raw => raw.filter (fun em => decide (em.id ∉ processed))

/-- Step 2 of `run_cycle` (autonomous_agent.py lines 182-188): unread
emails of every **active** account, each tagged with its account, in
account order. -/
def gatherEmails (env : CycleEnv) (user : User) :
    List (EmailMessage × ConnectedAccount) :=
  user.connected_accounts.flatMap (fun account =>
    if account.is_active then
      (fetch_emails_for_account env env.load_ids account).map (fun em => (em, account))
    else [])

/-- Steps 3-5 of `run_cycle` (autonomous_agent.py lines 195-220) for a
non-empty batch: enrichment, analysis, and the per-email loop.  The
re-pairing zips after enrichment and analysis (lines 199, 203) take the
account components from the current pair list exactly as the source
does. -/
def cycleCore (env : CycleEnv) (user : User) :
    List ActionDict × List ErrEntry × List String :=
  let all_emails := gatherEmails env user
  let accounts0 := all_emails.map (·.2)
  let emails1 := enrich_with_contacts env.contactsLookup (all_emails.map (·.1))
  let all1 := emails1.zip accounts0
  let emails2 := (agentAnalyze env.quickCall env.deepCall emails1).1
  let all2 := emails2.zip (all1.map (·.2))
  processLoop env user all2

/-- `EmailAgent.run_cycle` (autonomous_agent.py lines 158-231),
translated step by step. -/
def run_cycle (env : CycleEnv) (user_id : String) : Except PyError CycleOutcome :=
  match env.get_user user_id with
  | none => .ok .userNotFound
  | some user =>
    if user.connected_accounts.isEmpty then .ok .skipped
    else
      if (gatherEmails env user).isEmpty then
        match log_actions_outcome env.log_remote env.log_mkdirs env.log_disk with
        | .error e => .error e
        | .ok _ => .ok (.result (build_result env user_id [] []))
      else
        let lr := cycleCore env user
        match save_processed_ids_outcome env.save_remote env.save_disk with
        | .error e => .error e
        | .ok _ =>
          match log_actions_outcome env.log_remote env.log_mkdirs env.log_disk with
          | .error e => .error e
          | .ok _ => .ok (.result (build_result env user_id lr.1 lr.2.1))

/-- Equality of embedded call outcomes is decidable (used to evaluate
the model on concrete inputs). -/
instance {ε α : Type} [DecidableEq ε] [DecidableEq α] : DecidableEq (Except ε α) :=
  fun x y =>
    match x, y with
    | .ok a, .ok b =>
      if h : a = b then .isTrue (h ▸ rfl)
      else .isFalse (fun hh => h (Except.ok.inj hh))
    | .error a, .error b =>
      if h : a = b then .isTrue (h ▸ rfl)
      else .isFalse (fun hh => h (Except.error.inj hh))
    | .ok _, .error _ => .isFalse (fun hh => Except.noConfusion hh)
    | .error _, .ok _ => .isFalse (fun hh => Except.noConfusion hh)

/-- The audit-log path of a cycle does not raise. -/
def logPathOk (env : CycleEnv) : Prop :=
  log_actions_outcome env.log_remote env.log_mkdirs env.log_disk = .ok ()

/-! ## Concrete sample data for witnesses and counterexamples -/

/-- A minimal well-formed unanalyzed email. -/
def sampleEmail (i : String) : EmailMessage :=
  { id := i, subject := "note " ++ i, sender := { email := i ++ "@example.com" } }

def e1 : EmailMessage := sampleEmail "e1"

def e2 : EmailMessage := sampleEmail "e2"

/-- An email the classifier marked action-required (as it stands after
analysis, entering the per-email loop). -/
def actionEmail : EmailMessage :=
  { id := "m3", subject := "please act", sender := { email := "boss@x.com" },
    category := some .action_required }

def activeAccount : ConnectedAccount := { provider := .gmail, email := "acct@example.com" }

def inactiveAccount : ConnectedAccount :=
  { provider := .gmail, email := "acct@example.com", is_active := false }

def userActive : User :=
  { id := "u1", email := "u1@example.com", connected_accounts := [activeAccount] }

def userInactive : User :=
  { id := "u1", email := "u1@example.com", connected_accounts := [inactiveAccount] }

def userNoAccounts : User := { id := "u2", email := "u2@example.com" }

/-- A cycle environment where message id `"m1"` is already in the
loaded ProcessedSet and the provider returns it again among the unread
batch. -/
def envC2 : CycleEnv :=
  { get_user := fun uid => if uid = "u1" then some userActive else none,
    load_ids := {"m1"},
    fetch := fun _ => .ok [sampleEmail "m1", sampleEmail "m2"] }

/-- A cycle environment where importing the Google-Tasks provider
raises an exception that is not an `ImportError`, so task-worthy emails
fail in `_process_email`. -/
def envC7 : CycleEnv := { importTasks := .error .typeError }

/-- Five-message batch where only the third element (`actionEmail`,
id `"m3"`, category action_required) triggers task creation. -/
def batchC7 : List (EmailMessage × ConnectedAccount) :=
  [(sampleEmail "m1", activeAccount), (sampleEmail "m2", activeAccount),
   (actionEmail, activeAccount), (sampleEmail "m4", activeAccount),
   (sampleEmail "m5", activeAccount)]

/-- A source message whose subject already carries the reply marker. -/
def reOriginal : EmailMessage :=
  { id := "m9", subject := "Re: Hello", sender := { email := "alice@example.com" } }

/-- A cycle environment whose only user has one connected but inactive
account. -/
def envC6 : CycleEnv :=
  { get_user := fun uid => if uid = "u1" then some userInactive else none }

/-- A cycle environment whose only user has no connected accounts. -/
def envC6b : CycleEnv :=
  { get_user := fun uid => if uid = "u2" then some userNoAccounts else none }

/-- A triage oracle that flags `e1` as spam and says nothing about
other ids. -/
def quickSpamE1 : List EmailMessage → Except Unit (List QuickResult) :=
  fun _ => .ok [{ id := some "e1", is_spam := true }]

/-- A deep-analysis endpoint that fails (transport error or unparsable
response) on every call. -/
def deepFailAlways : List EmailMessage → Except Unit (List DeepResult) :=
  fun _ => .error ()

/-! ## Helper lemmas -/

theorem descEnum_isSetEnum : IsSetEnum descEnum := by
  intro s
  refine ⟨List.nodup_reverse.mpr (s.sort_nodup _), ?_⟩
  rw [descEnum, List.toFinset_reverse, Finset.sort_toFinset]

theorem ascEnum_isSetEnum : IsSetEnum ascEnum := fun s =>
  ⟨s.sort_nodup _, s.sort_toFinset _⟩

theorem list_range_toFinset (n : ℕ) : (List.range n).toFinset = Finset.range n := by
  ext x
  simp

theorem enrich_with_contacts_eq (lookup : Except PyError (String → Option ContactInfo))
    (emails : List EmailMessage) : enrich_with_contacts lookup emails = emails := by
  unfold enrich_with_contacts
  split
  · rfl
  · split <;> rfl

theorem applyDeep_id (rs : List DeepResult) (em : EmailMessage) :
    (applyDeep rs em).id = em.id := by
  unfold applyDeep
  cases dictById rs em.id <;> rfl

theorem analyze_emails_ids (deepCall : List EmailMessage → Except Unit (List DeepResult))
    (emails : List EmailMessage) :
    (analyze_emails deepCall emails).map (·.id) = emails.map (·.id) := by
  cases emails with
  | nil => simp [analyze_emails]
  | cons a l =>
    simp only [analyze_emails, List.isEmpty_cons, Bool.false_eq_true, if_false]
    cases deepCall (a :: l) with
    | error e => rfl
    | ok rs =>
      simp only [List.map_map]
      exact List.map_congr_left (fun em _ => applyDeep_id rs em)

theorem markSpam_id (em : EmailMessage) : (markSpam em).id = em.id := rfl

theorem markNewsletter_id (em : EmailMessage) : (markNewsletter em).id = em.id := rfl

theorem triageSplit_perm (qmap : String → Option QuickResult) (l : List EmailMessage) :
    List.Perm ((triageSplit qmap l).1.map (·.id) ++ (triageSplit qmap l).2.map (·.id))
      (l.map (·.id)) := by
  induction l with
  | nil => simp [triageSplit]
  | cons em rest ih =>
    unfold triageSplit
    cases qmap em.id with
    | none => simpa using ih.cons em.id
    | some qr =>
      by_cases hs : qr.is_spam
      · simp only [hs, if_true, List.map_cons]
        exact List.perm_middle.trans (ih.cons em.id)
      · by_cases hn : qr.is_newsletter
        · simp only [hs, hn, if_true, Bool.false_eq_true, if_false, List.map_cons]
          exact List.perm_middle.trans (ih.cons em.id)
        · simp only [hs, hn, Bool.false_eq_true, if_false, List.map_cons, List.cons_append]
          exact ih.cons em.id

theorem agentAnalyze_ids_perm (quickCall : List EmailMessage → Except Unit (List QuickResult))
    (deepCall : List EmailMessage → Except Unit (List DeepResult))
    (emails : List EmailMessage) :
    List.Perm (((agentAnalyze quickCall deepCall emails).1).map (·.id))
      (emails.map (·.id)) := by
  unfold agentAnalyze
  by_cases he : emails.isEmpty
  · simp [he]
  · simp only [he, Bool.false_eq_true, if_false]
    cases buildQuickMap (quick_classify quickCall emails) with
    | error e =>
      simp only
      rw [analyze_emails_ids]
    | ok qmap =>
      simp only
      by_cases hw : (triageSplit qmap emails).1.isEmpty
      · simp only [hw, if_true, List.nil_append]
        have h := triageSplit_perm qmap emails
        rw [List.isEmpty_iff.mp hw] at h
        simpa using h
      · simp only [hw, Bool.false_eq_true, if_false, List.map_append]
        rw [analyze_emails_ids]
        exact triageSplit_perm qmap emails

theorem process_email_ok_id (env : CycleEnv) (user : User) (em : EmailMessage)
    (account : ConnectedAccount) (a : ActionDict)
    (h : process_email env user em account = .ok a) : a.email_id = em.id := by
  unfold process_email at h
  split at h
  · cases htask : create_task_for_email env user em with
    | error e => rw [htask] at h; simp at h
    | ok a2 => rw [htask] at h; cases h; rfl
  · cases h
    rfl

theorem processLoop_action_mem (env : CycleEnv) (user : User)
    (batch : List (EmailMessage × ConnectedAccount)) (a : ActionDict)
    (h : a ∈ (processLoop env user batch).1) :
    ∃ p ∈ batch, a.email_id = p.1.id := by
  induction batch with
  | nil => simp [processLoop] at h
  | cons q rest ih =>
    obtain ⟨em, account⟩ := q
    cases hp : process_email env user em account with
    | ok a0 =>
      simp only [processLoop, hp] at h
      rcases List.mem_cons.mp h with h | h
      · exact ⟨(em, account), List.mem_cons_self _ _,
          by rw [h]; exact process_email_ok_id env user em account a0 hp⟩
      · obtain ⟨p, hpmem, hpid⟩ := ih h
        exact ⟨p, List.mem_cons_of_mem _ hpmem, hpid⟩
    | error e =>
      simp only [processLoop, hp] at h
      obtain ⟨p, hpmem, hpid⟩ := ih h
      exact ⟨p, List.mem_cons_of_mem _ hpmem, hpid⟩

theorem processLoop_errors (env : CycleEnv) (user : User)
    (batch : List (EmailMessage × ConnectedAccount)) :
    (processLoop env user batch).2.1 =
      (batch.filter (pFails env user)).map (pErrEntry env user) := by
  induction batch with
  | nil => rfl
  | cons q rest ih =>
    obtain ⟨em, account⟩ := q
    cases hp : process_email env user em account with
    | ok a => simp [processLoop, hp, List.filter_cons, pFails, pErrEntry, ih]
    | error e => simp [processLoop, hp, List.filter_cons, pFails, pErrEntry, ih]

theorem processLoop_actions (env : CycleEnv) (user : User)
    (batch : List (EmailMessage × ConnectedAccount)) :
    (processLoop env user batch).1 =
      batch.filterMap (fun p => (process_email env user p.1 p.2).toOption) := by
  induction batch with
  | nil => rfl
  | cons q rest ih =>
    obtain ⟨em, account⟩ := q
    cases hp : process_email env user em account with
    | ok a => simp [processLoop, hp, List.filterMap_cons, Except.toOption, ih]
    | error e => simp [processLoop, hp, List.filterMap_cons, Except.toOption, ih]

theorem processLoop_len (env : CycleEnv) (user : User)
    (batch : List (EmailMessage × ConnectedAccount)) :
    (processLoop env user batch).1.length + (processLoop env user batch).2.1.length =
      batch.length := by
  induction batch with
  | nil => rfl
  | cons q rest ih =>
    obtain ⟨em, account⟩ := q
    cases hp : process_email env user em account with
    | ok a => simp [processLoop, hp]; omega
    | error e => simp [processLoop, hp]; omega

theorem countP_one_filter {α : Type} {l : List α} {P : α → Bool} {a : α}
    (ha : a ∈ l) (hPa : P a = true) (h1 : l.countP P = 1) : l.filter P = [a] := by
  have hlen : (l.filter P).length = 1 := by
    rw [← List.countP_eq_length_filter]
    exact h1
  obtain ⟨b, hb⟩ := List.length_eq_one.mp hlen
  have hab : a ∈ l.filter P := List.mem_filter.mpr ⟨ha, hPa⟩
  rw [hb] at hab
  rw [hb, List.mem_singleton.mp hab]

theorem pyStartsWith_lower_re (s : String) (h : pyStartsWith s "Re:" = true) :
    pyStartsWith (pyLower s) "re:" = true := by
  unfold pyStartsWith at h ⊢
  rw [List.isPrefixOf_iff_prefix] at h ⊢
  obtain ⟨t, ht⟩ := h
  refine ⟨t.map Char.toLower, ?_⟩
  have hdata : (pyLower s).data = s.data.map Char.toLower := rfl
  rw [hdata, ← ht, List.map_append]
  have hre : ("Re:".data.map Char.toLower) = "re:".data := by decide
  rw [hre]

theorem triageSplit_none (l : List EmailMessage) :
    triageSplit (fun _ => none) l = (l, []) := by
  induction l with
  | nil => rfl
  | cons em rest ih => simp [triageSplit, ih]

theorem draft_reply_ok_parts (opusO : Nat → Except PyError String)
    (evalO : Nat → EvalOutcome) (safetyCall : Except Unit SafetyJson)
    (fresh_id : String) (original : EmailMessage)
    (instructions tone user_name : String) (max_iter : Nat)
    (b0 : String) (st : DraftLoopState)
    (h0 : opusO 0 = .ok b0)
    (hloop : draftLoop evalO opusO max_iter 0 1 b0 = .ok st) :
    (draft_reply opusO evalO safetyCall fresh_id original instructions tone
      user_name max_iter).draftCalls = st.draftCalls ∧
    (draft_reply opusO evalO safetyCall fresh_id original instructions tone
      user_name max_iter).evalCalls = st.evalCalls ∧
    (run_safety_check safetyCall ≠ .truthyNonDict →
      (draft_reply opusO evalO safetyCall fresh_id original instructions tone
        user_name max_iter).draft.body = st.body ∧
      (draft_reply opusO evalO safetyCall fresh_id original instructions tone
        user_name max_iter).draft.subject =
        (if pyStartsWith (pyLower original.subject) "re:" then original.subject
         else "Re: " ++ original.subject)) := by
  unfold draft_reply
  simp only [h0, hloop]
  cases hsj : run_safety_check safetyCall with
  | truthyNonDict =>
    refine ⟨rfl, rfl, fun hne => absurd rfl hne⟩
  | falsy =>
    exact ⟨rfl, rfl, fun _ => ⟨rfl, rfl⟩⟩
  | dict r =>
    refine ⟨rfl, rfl, fun _ => ?_⟩
    cases hsf : r.safe <;> simp [hsf]

theorem gatherEmails_not_processed (env : CycleEnv) (user : User)
    (p : EmailMessage × ConnectedAccount) (h : p ∈ gatherEmails env user) :
    p.1.id ∉ env.load_ids := by
  unfold gatherEmails at h
  rw [List.mem_flatMap] at h
  obtain ⟨account, hacc, hp⟩ := h
  by_cases ha : account.is_active
  · rw [if_pos ha, List.mem_map] at hp
    obtain ⟨em, hem, rfl⟩ := hp
    unfold fetch_emails_for_account at hem
    cases hf : env.fetch account with
    | error e => rw [hf] at hem; simp at hem
    | ok raw =>
      rw [hf] at hem
      simpa using (List.mem_filter.mp hem).2
  · rw [if_neg ha] at hp
    simp at hp

/-! ## Claims -/

/-- C10: the contact-enrichment step never modifies any message: for
every batch and every outcome of the contacts lookup,
`_enrich_with_contacts` returns the input list with every element
unchanged.  `enrich_email_with_contact` performs dict item assignment
on a Pydantic `EmailMessage` (raising `TypeError` before any field is
written, swallowed by the surrounding handler) and its successful
return value would anyway be bound to a discarded loop variable, so
every message proceeds to classification un-enriched. -/
theorem claim10_enrichment_never_modifies
    (lookup : Except PyError (String → Option ContactInfo))
    (emails : List EmailMessage) :
    enrich_with_contacts lookup emails = emails :=
  enrich_with_contacts_eq lookup emails

/-- C4: for every input batch of K messages given to the classification
routing step (`EmailAgent._analyze_emails`), the returned batch also
has exactly K messages, and every input message identifier appears
exactly once in the output (the multiset of identifiers is preserved);
the attached analysis is whatever the tiers produced, possibly the
absent/no-opinion default. -/
theorem claim4_routing_completeness
    (quickCall : List EmailMessage → Except Unit (List QuickResult))
    (deepCall : List EmailMessage → Except Unit (List DeepResult))
    (emails : List EmailMessage) :
    ((agentAnalyze quickCall deepCall emails).1).length = emails.length ∧
    List.Perm (((agentAnalyze quickCall deepCall emails).1).map (·.id))
      (emails.map (·.id)) := by
  have hp := agentAnalyze_ids_perm quickCall deepCall emails
  exact ⟨by simpa using hp.length_eq, hp⟩

/-- C2: for every user and message identifier, if the identifier is in
the loaded ProcessedSet at the start of a cycle, that cycle never
re-classifies or re-acts on it: it is absent from the fetched batch
(the input to enrichment, classification and action dispatch), and no
action of the returned cycle result references it. -/
theorem claim2_processed_never_reprocessed (env : CycleEnv) (uid : String)
    (user : User) (x : String)
    (hu : env.get_user uid = some user) (hx : x ∈ env.load_ids) :
    (∀ p ∈ gatherEmails env user, p.1.id ≠ x) ∧
    (∀ r, run_cycle env uid = .ok (.result r) →
      ∀ a ∈ r.actions, a.email_id ≠ x) := by
  have hgather : ∀ p ∈ gatherEmails env user, p.1.id ≠ x := by
    intro p hp heq
    exact gatherEmails_not_processed env user p hp (heq ▸ hx)
  refine ⟨hgather, ?_⟩
  have hcore : ∀ a ∈ (cycleCore env user).1, a.email_id ≠ x := by
    intro a ha
    simp only [cycleCore] at ha
    obtain ⟨p2, hp2, hid⟩ := processLoop_action_mem _ _ _ _ ha
    have h1 := (List.of_mem_zip hp2).1
    have h2 := List.mem_map_of_mem (fun em : EmailMessage => em.id) h1
    have h3 := (agentAnalyze_ids_perm env.quickCall env.deepCall _).mem_iff.mp h2
    rw [enrich_with_contacts_eq, List.map_map, List.mem_map] at h3
    obtain ⟨p, hpmem, hpid⟩ := h3
    have hpe : p.1.id = p2.1.id := by simpa using hpid
    rw [hid, ← hpe]
    exact hgather p hpmem
  intro r hr a ha
  unfold run_cycle at hr
  rw [hu] at hr
  simp only at hr
  by_cases hacc : user.connected_accounts.isEmpty
  · rw [if_pos hacc] at hr
    simp at hr
  · rw [if_neg hacc] at hr
    by_cases hge : (gatherEmails env user).isEmpty
    · rw [if_pos hge] at hr
      split at hr
      · simp at hr
      · have hre : r = build_result env uid [] [] := by
          simpa using hr.symm
        rw [hre] at ha
        simp [build_result] at ha
    · rw [if_neg hge] at hr
      split at hr
      · simp at hr
      · split at hr
        · simp at hr
        · have hre : r = build_result env uid (cycleCore env user).1
              (cycleCore env user).2.1 := by
            simpa using hr.symm
          rw [hre] at ha
          exact hcore a ha

/-- C7: for every batch processed in one cycle, an exception raised
while processing one message is caught and recorded as exactly one
error entry keyed by that message's id, and every other message in the
batch is still processed and receives its ActionRecord — one message's
failure never aborts the batch. -/
theorem claim7_per_message_isolation (env : CycleEnv) (user : User)
    (batch : List (EmailMessage × ConnectedAccount))
    (p : EmailMessage × ConnectedAccount)
    (hp : p ∈ batch) (hfail : pFails env user p = true)
    (huniq : batch.countP (pFails env user) = 1) :
    (processLoop env user batch).2.1 = [pErrEntry env user p] ∧
    (processLoop env user batch).1.length = batch.length - 1 ∧
    (∀ q ∈ batch, q ≠ p →
      ∃ a ∈ (processLoop env user batch).1, a.email_id = q.1.id) := by
  have hfilter : batch.filter (pFails env user) = [p] :=
    countP_one_filter hp hfail huniq
  have herr : (processLoop env user batch).2.1 = [pErrEntry env user p] := by
    rw [processLoop_errors, hfilter]
    rfl
  refine ⟨herr, ?_, ?_⟩
  · have hlen := processLoop_len env user batch
    rw [herr] at hlen
    simp only [List.length_singleton] at hlen
    omega
  · intro q hq hqp
    cases hqv : pFails env user q with
    | true =>
      exfalso
      have hmem : q ∈ batch.filter (pFails env user) :=
        List.mem_filter.mpr ⟨hq, hqv⟩
      rw [hfilter] at hmem
      exact hqp (List.mem_singleton.mp hmem)
    | false =>
      cases hqe : process_email env user q.1 q.2 with
      | error e => simp [pFails, hqe] at hqv
      | ok a =>
        refine ⟨a, ?_, process_email_ok_id env user q.1 q.2 a hqe⟩
        rw [processLoop_actions, List.mem_filterMap]
        exact ⟨q, hq, by rw [hqe]; rfl⟩

theorem claim7_witness :
    (actionEmail, activeAccount) ∈ batchC7 ∧
    pFails envC7 userActive (actionEmail, activeAccount) = true ∧
    batchC7.countP (pFails envC7 userActive) = 1 ∧
    ((processLoop envC7 userActive batchC7).2.1 =
        [pErrEntry envC7 userActive (actionEmail, activeAccount)] ∧
     (processLoop envC7 userActive batchC7).1.length = batchC7.length - 1 ∧
     (∀ q ∈ batchC7, q ≠ (actionEmail, activeAccount) →
       ∃ a ∈ (processLoop envC7 userActive batchC7).1, a.email_id = q.1.id)) :=
  ⟨by decide, by decide, by decide,
   claim7_per_message_isolation envC7 userActive batchC7 (actionEmail, activeAccount)
     (by decide) (by decide) (by decide)⟩

/-- C8 counterexample: with the first evaluation parsed and scoring 9
(≥ 8), exactly one drafting call and one evaluation call occur — but
the returned Draft body is **not** the first generated body: the
safety check parses to truthy non-object JSON, so the flag-attach read
`safety_result.get("safe", True)` (email_brain.py line 543) raises
`AttributeError` into the outer `except` and the error draft is
returned instead. -/
theorem claim8_counterexample :
    (fun (_ : Nat) => (Except.ok "First body." : Except PyError String)) 0 =
      .ok "First body." ∧
    (fun (_ : Nat) => EvalOutcome.evOk
       { overall_score := some 9, pass := some false }) 0 =
      .evOk { overall_score := some 9, pass := some false } ∧
    (8 : Int) ≤ 9 ∧
    (draft_reply (fun _ => .ok "First body.")
        (fun _ => .evOk { overall_score := some 9, pass := some false })
        (.ok .truthyNonDict) "d8" e1 "inst" "professional" "" 2).draftCalls = 1 ∧
    (draft_reply (fun _ => .ok "First body.")
        (fun _ => .evOk { overall_score := some 9, pass := some false })
        (.ok .truthyNonDict) "d8" e1 "inst" "professional" "" 2).evalCalls = 1 ∧
    (draft_reply (fun _ => .ok "First body.")
        (fun _ => .evOk { overall_score := some 9, pass := some false })
        (.ok .truthyNonDict) "d8" e1 "inst" "professional" "" 2).draft.body =
      "[Error generating draft: AttributeError]" ∧
    "[Error generating draft: AttributeError]" ≠ "First body." :=
  ⟨rfl, rfl, by decide, rfl, rfl, rfl, by decide⟩

/-- C8 amended: if the first evaluation round parses with an overall
score of at least 8, the draft is accepted immediately regardless of
the pass flag — exactly one drafting call and one evaluation call
occur and no rewrite happens; the returned Draft body is the first
generated body provided the safety-check step does not itself raise
(its parsed JSON is an object or falsy), and otherwise the error draft
is returned with the same call counts. -/
theorem claim8_evaluator_threshold (opusO : Nat → Except PyError String)
    (evalO : Nat → EvalOutcome) (safetyCall : Except Unit SafetyJson)
    (fresh_id : String) (original : EmailMessage)
    (instructions tone user_name : String) (max_iter : Nat)
    (b0 : String) (ev : EvalResult) (s : Int)
    (hmax : 1 ≤ max_iter)
    (h0 : opusO 0 = .ok b0)
    (he : evalO 0 = .evOk ev)
    (hs : ev.overall_score = some s)
    (h8 : 8 ≤ s) :
    ((draft_reply opusO evalO safetyCall fresh_id original instructions tone
       user_name max_iter).draftCalls = 1 ∧
     (draft_reply opusO evalO safetyCall fresh_id original instructions tone
       user_name max_iter).evalCalls = 1) ∧
    (run_safety_check safetyCall ≠ .truthyNonDict →
      (draft_reply opusO evalO safetyCall fresh_id original instructions tone
        user_name max_iter).draft.body = b0) := by
  obtain ⟨k, rfl⟩ : ∃ k, max_iter = k + 1 := ⟨max_iter - 1, by omega⟩
  have hloop : draftLoop evalO opusO (k + 1) 0 1 b0 = .ok ⟨b0, 1, 1⟩ := by
    unfold draftLoop
    rw [he]
    simp [hs, decide_eq_true h8]
  obtain ⟨hc1, hc2, hc3⟩ := draft_reply_ok_parts opusO evalO safetyCall
    fresh_id original instructions tone user_name (k + 1) b0 ⟨b0, 1, 1⟩ h0 hloop
  exact ⟨⟨hc1, hc2⟩, fun hsafe => (hc3 hsafe).1⟩

theorem claim8_witness :
    (1 ≤ 2 ∧
     (fun (_ : Nat) => (Except.ok "First body." : Except PyError String)) 0 =
       .ok "First body." ∧
     (fun (_ : Nat) => EvalOutcome.evOk
        { overall_score := some 9, pass := some false }) 0 =
       .evOk { overall_score := some 9, pass := some false } ∧
     ({ overall_score := some 9, pass := some false } : EvalResult).overall_score =
       some 9 ∧
     (8 : Int) ≤ 9 ∧
     run_safety_check (.error ()) ≠ .truthyNonDict) ∧
    (((draft_reply (fun _ => .ok "First body.")
        (fun _ => .evOk { overall_score := some 9, pass := some false })
        (.error ()) "d8" e1 "inst" "professional" "" 2).draftCalls = 1 ∧
      (draft_reply (fun _ => .ok "First body.")
        (fun _ => .evOk { overall_score := some 9, pass := some false })
        (.error ()) "d8" e1 "inst" "professional" "" 2).evalCalls = 1) ∧
     (draft_reply (fun _ => .ok "First body.")
        (fun _ => .evOk { overall_score := some 9, pass := some false })
        (.error ()) "d8" e1 "inst" "professional" "" 2).draft.body = "First body.") :=
  ⟨⟨by decide, rfl, rfl, rfl, by decide, by decide⟩,
   ⟨(claim8_evaluator_threshold _ _ _ "d8" e1 "inst" "professional" "" 2
       "First body." { overall_score := some 9, pass := some false } 9
       (by decide) rfl rfl rfl (by decide)).1,
    (claim8_evaluator_threshold _ _ _ "d8" e1 "inst" "professional" "" 2
       "First body." { overall_score := some 9, pass := some false } 9
       (by decide) rfl rfl rfl (by decide)).2 (by decide)⟩⟩

/-- C5 counterexample: with a batch of two messages where triage marks
`e1` spam, the single deep-analysis call covers only `[e2]` and fails,
yet no fallback deep-analysis attempt over the entire original batch
`[e1, e2]` is ever made — the trace of deep calls is exactly `[[e2]]`.
`analyze_emails` swallows its own transport/parse failures and returns
the un-annotated subset, so the claimed undivided whole-batch fallback
does not occur. -/
theorem claim5_counterexample :
    (agentAnalyze quickSpamE1 deepFailAlways [e1, e2]).2 = [[e2]] ∧
    deepFailAlways [e2] = .error () ∧
    [e1, e2] ∉ (agentAnalyze quickSpamE1 deepFailAlways [e1, e2]).2 ∧
    (agentAnalyze quickSpamE1 deepFailAlways [e1, e2]).1 = [e2, markSpam e1] :=
  ⟨by decide, rfl, by decide, by decide⟩

/-- C5 amended: if the quick-triage call fails, every message is routed
to deep analysis in a single call over the whole batch; if that deep
call also fails, the batch is returned with no Analysis populated and
no further fallback call is made (the deep-call trace is exactly
`[emails]`). -/
theorem claim5_amended
    (quickCall : List EmailMessage → Except Unit (List QuickResult))
    (deepCall : List EmailMessage → Except Unit (List DeepResult))
    (emails : List EmailMessage)
    (hne : emails ≠ [])
    (hq : quickCall emails = .error ())
    (hd : deepCall emails = .error ()) :
    agentAnalyze quickCall deepCall emails = (emails, [emails]) := by
  have hempty : emails.isEmpty = false := by
    cases emails
    · exact absurd rfl hne
    · rfl
  simp only [agentAnalyze, quick_classify, hempty, Bool.false_eq_true, if_false,
    hq, buildQuickMap, List.isEmpty_nil, if_true, triageSplit_none,
    analyze_emails, hd, List.append_nil]

theorem claim5_witness :
    ([e1] ≠ ([] : List EmailMessage) ∧
     (fun (_ : List EmailMessage) => (Except.error () : Except Unit (List QuickResult))) [e1] =
       .error () ∧
     deepFailAlways [e1] = .error ()) ∧
    agentAnalyze (fun _ => .error ()) deepFailAlways [e1] = ([e1], [[e1]]) :=
  ⟨⟨by decide, rfl, rfl⟩,
   claim5_amended (fun _ => .error ()) deepFailAlways [e1] (by decide) rfl rfl⟩

/-- C9 counterexample: on the irrecoverable-failure path (the initial
drafting call raises), the returned Draft's subject is
`"Re: " + subject` unconditionally, so a subject already starting with
`"Re:"` is double-prefixed — the claim that the no-double-prefixing
rule holds on every return path is false. -/
theorem claim9_counterexample :
    pyStartsWith reOriginal.subject "Re:" = true ∧
    (draft_reply (fun _ => .error (.generic "API down")) (fun _ => .parseBreak)
      (.error ()) "d9" reOriginal "i" "professional" "" 2).draft.subject =
      "Re: Re: Hello" ∧
    "Re: Re: Hello" ≠ reOriginal.subject :=
  ⟨by decide, by decide, by decide⟩

/-- C9 amended: on the success path of `draft_reply` (initial draft
generated, evaluator loop ends without an escaping exception, and the
safety-flag read does not raise — i.e. the parsed safety JSON is an
object or falsy, not a truthy non-object) the subject of the returned
Draft equals the original subject whenever it already starts with
`"Re:"` (the source's check is case-insensitive); on the
irrecoverable-failure path `"Re: "` is prepended unconditionally. -/
theorem claim9_amended (opusO : Nat → Except PyError String)
    (evalO : Nat → EvalOutcome) (safetyCall : Except Unit SafetyJson)
    (fresh_id : String) (original : EmailMessage)
    (instructions tone user_name : String) (max_iter : Nat)
    (b0 : String) (st : DraftLoopState)
    (h0 : opusO 0 = .ok b0)
    (hloop : draftLoop evalO opusO max_iter 0 1 b0 = .ok st)
    (hre : pyStartsWith original.subject "Re:" = true)
    (hsafe : run_safety_check safetyCall ≠ .truthyNonDict) :
    (draft_reply opusO evalO safetyCall fresh_id original instructions tone
      user_name max_iter).draft.subject = original.subject := by
  have hlow := pyStartsWith_lower_re original.subject hre
  obtain ⟨_, _, hc3⟩ := draft_reply_ok_parts opusO evalO safetyCall
    fresh_id original instructions tone user_name max_iter b0 st h0 hloop
  obtain ⟨_, hsub⟩ := hc3 hsafe
  rw [hsub, if_pos hlow]

theorem claim9_witness :
    ((fun (_ : Nat) => (Except.ok "B" : Except PyError String)) 0 = .ok "B" ∧
     draftLoop (fun _ => .parseBreak) (fun _ => .ok "B") 2 0 1 "B" =
       .ok ⟨"B", 1, 1⟩ ∧
     pyStartsWith reOriginal.subject "Re:" = true ∧
     run_safety_check (.error ()) ≠ .truthyNonDict) ∧
    (draft_reply (fun _ => .ok "B") (fun _ => .parseBreak) (.error ()) "dw"
      reOriginal "i" "t" "u" 2).draft.subject = reOriginal.subject :=
  ⟨⟨rfl, rfl, by decide, by decide⟩,
   claim9_amended _ _ _ "dw" reOriginal "i" "t" "u" 2 "B" ⟨"B", 1, 1⟩
     rfl rfl (by decide) (by decide)⟩

/-- C1 counterexample: the processed-ID state is a Python **set**, so
`list(ids)[-5000:]` keeps the last 5000 entries of an arbitrary
enumeration, not of the insertion order.  With the admissible
descending enumeration and the insertion history `0, 1, ..., 5000`
(5001 distinct ids, oldest first), `load` returns `{0, ..., 4999}`
while the 5000 most recently added ids are `{1, ..., 5000}`. -/
theorem claim1_counterexample :
    IsSetEnum descEnum ∧
    (List.range 5001).Nodup ∧
    5000 < (List.range 5001).length ∧
    loadProcessedIds (saveProcessedIds descEnum (List.range 5001).toFinset) ≠
      (mostRecent (List.range 5001) 5000).toFinset := by
  refine ⟨descEnum_isSetEnum, List.nodup_range 5001, by simp, ?_⟩
  have h2 : descEnum (Finset.range 5001) = (List.range 5001).reverse := by
    unfold descEnum
    rw [Finset.sort_range]
  have h3 : (List.range 5001).reverse = 5000 :: (List.range 5000).reverse := by
    rw [show (5001 : ℕ) = 5000 + 1 from rfl, List.range_succ 5000]
    simp
  have h4 : saveProcessedIds descEnum (List.range 5001).toFinset =
      (List.range 5000).reverse := by
    rw [list_range_toFinset]
    unfold saveProcessedIds pyTail
    rw [h2, h3]
    simp
  have h5 : loadProcessedIds ((List.range 5000).reverse) = Finset.range 5000 := by
    unfold loadProcessedIds pyTail
    simp [list_range_toFinset]
  have h6 : mostRecent (List.range 5001) 5000 = (List.range 5000).map Nat.succ := by
    unfold mostRecent pyTail
    have hl : (List.range 5001).length - 5000 = 1 := by simp
    rw [hl, show (5001 : ℕ) = 5000 + 1 from rfl, List.range_succ_eq_map 5000]
    rfl
  rw [h4, h5, h6]
  intro heq
  have h0l : (0 : ℕ) ∈ Finset.range 5000 := by simp
  rw [heq, List.mem_toFinset, List.mem_map] at h0l
  obtain ⟨y, _, hy⟩ := h0l
  exact Nat.succ_ne_zero y hy

/-- C1 amended: after at least 5000 distinct ids have been merged into
a user's set, `load` returns exactly 5000 ids, every one of which was
previously merged — but *which* 5000 survive is determined by the set's
enumeration order, not by insertion recency. -/
theorem claim1_amended {α : Type} [DecidableEq α] (enum : Finset α → List α)
    (henum : IsSetEnum enum) (s : Finset α) (hcard : 5000 ≤ s.card) :
    (loadProcessedIds (saveProcessedIds enum s)).card = 5000 ∧
    loadProcessedIds (saveProcessedIds enum s) ⊆ s := by
  obtain ⟨hnd, hts⟩ := henum s
  have hlen : (enum s).length = s.card := by
    have hc := List.toFinset_card_of_nodup hnd
    rw [hts] at hc
    exact hc.symm
  have hlen5 : 5000 ≤ (enum s).length := by omega
  have hstlen : (saveProcessedIds enum s).length = 5000 := by
    unfold saveProcessedIds pyTail
    rw [List.length_drop]
    omega
  have hstnd : (saveProcessedIds enum s).Nodup :=
    hnd.sublist (List.drop_sublist _ _)
  have hload : loadProcessedIds (saveProcessedIds enum s) =
      (saveProcessedIds enum s).toFinset := by
    unfold loadProcessedIds pyTail
    rw [hstlen]
    simp
  constructor
  · rw [hload, List.toFinset_card_of_nodup hstnd, hstlen]
  · rw [hload]
    intro x hx
    rw [List.mem_toFinset] at hx
    unfold saveProcessedIds pyTail at hx
    have hxl : x ∈ enum s := List.drop_subset _ _ hx
    rw [← hts]
    exact List.mem_toFinset.mpr hxl

theorem claim1_witness :
    IsSetEnum ascEnum ∧ 5000 ≤ (Finset.range 5001).card ∧
    ((loadProcessedIds (saveProcessedIds ascEnum (Finset.range 5001))).card = 5000 ∧
     loadProcessedIds (saveProcessedIds ascEnum (Finset.range 5001)) ⊆
       Finset.range 5001) :=
  ⟨ascEnum_isSetEnum, by simp,
   claim1_amended ascEnum ascEnum_isSetEnum (Finset.range 5001) (by simp)⟩

/-- C6 counterexample: a known user whose single connected account is
inactive does **not** get a `{"skipped": True}` result — `run_cycle`
returns skipped only when the `connected_accounts` list is empty, and
with all accounts inactive it runs through the empty-batch path and
returns a normal zero-email result dict. -/
theorem claim6_counterexample :
    (∀ a ∈ userInactive.connected_accounts, a.is_active = false) ∧
    userInactive.connected_accounts ≠ [] ∧
    envC6.get_user "u1" = some userInactive ∧
    run_cycle envC6 "u1" = .ok (.result (build_result envC6 "u1" [] [])) ∧
    run_cycle envC6 "u1" ≠ .ok .skipped :=
  ⟨by decide, by decide, by decide, by decide, by decide⟩

/-- C6 amended: an unknown user yields the `"user_not_found"` result; a
user with an empty `connected_accounts` list yields the `"skipped"`
result; a user whose accounts are all inactive yields a normal result
with zero actions (not `"skipped"`), provided the audit-log write path
does not raise. -/
theorem claim6_amended (env : CycleEnv) (uid : String) :
    (env.get_user uid = none → run_cycle env uid = .ok .userNotFound) ∧
    (∀ user, env.get_user uid = some user → user.connected_accounts = [] →
      run_cycle env uid = .ok .skipped) ∧
    (∀ user, env.get_user uid = some user → user.connected_accounts ≠ [] →
      (∀ a ∈ user.connected_accounts, a.is_active = false) →
      logPathOk env →
      run_cycle env uid = .ok (.result (build_result env uid [] []))) := by
  refine ⟨?_, ?_, ?_⟩
  · intro h
    simp [run_cycle, h]
  · intro user hu hacc
    simp [run_cycle, hu, hacc]
  · intro user hu hne hin hlog
    have hge : gatherEmails env user = [] := by
      unfold gatherEmails
      rw [List.flatMap_eq_nil_iff]
      intro account hacc
      rw [if_neg]
      simp [hin account hacc]
    have hene : user.connected_accounts.isEmpty = false := by
      cases h : user.connected_accounts
      · exact absurd h hne
      · rfl
    unfold logPathOk at hlog
    simp [run_cycle, hu, hene, hge, hlog]

theorem claim6_witness :
    (envC6.get_user "zz" = none ∧ run_cycle envC6 "zz" = .ok .userNotFound) ∧
    (envC6b.get_user "u2" = some userNoAccounts ∧
     userNoAccounts.connected_accounts = [] ∧
     run_cycle envC6b "u2" = .ok .skipped) ∧
    (envC6.get_user "u1" = some userInactive ∧
     userInactive.connected_accounts ≠ [] ∧
     (∀ a ∈ userInactive.connected_accounts, a.is_active = false) ∧
     logPathOk envC6 ∧
     run_cycle envC6 "u1" = .ok (.result (build_result envC6 "u1" [] []))) :=
  ⟨⟨by decide, (claim6_amended envC6 "zz").1 (by decide)⟩,
   ⟨by decide, by decide,
    (claim6_amended envC6b "u2").2.1 userNoAccounts (by decide) (by decide)⟩,
   ⟨by decide, by decide, by decide, rfl,
    (claim6_amended envC6 "u1").2.2 userInactive (by decide) (by decide)
      (by decide) rfl⟩⟩

theorem claim2_witness :
    envC2.get_user "u1" = some userActive ∧ "m1" ∈ envC2.load_ids ∧
    ((∀ p ∈ gatherEmails envC2 userActive, p.1.id ≠ "m1") ∧
     (∀ r, run_cycle envC2 "u1" = .ok (.result r) →
       ∀ a ∈ r.actions, a.email_id ≠ "m1")) :=
  ⟨by decide, by decide,
    claim2_processed_never_reprocessed envC2 "u1" userActive "m1"
      (by decide) (by decide)⟩

end AutoMinds
